import Mathlib

/-!
Verification of the chatbot repository (ESP32 voice-assistant client and
WebSocket ingestion server) against its natural-language specification.

The definitions below are shallow embeddings of the Python sources:
  * `src/server/server.py` — RMS computation, `TurnDetector`, `TurnStats`,
    `should_drop_turn`, the per-message behaviour of `handle_ws_record` and
    `handle_ws_assistant`;
  * `src/esp32_client/uwebsockets/client.py` — `WebsocketClient._write_frame`;
  * `src/esp32_client/main.py` — `_dc_block`, `_update_auto_gain`, and the
    reconnect backoff of `main`.

Machine integers are modelled as `Nat`/`Int` (Python integers are unbounded);
Python's floor division `//` and arithmetic shift `>>` on possibly negative
values are modelled with `Int.fdiv`.  Python's `int((acc // samples) ** 0.5)`
is modelled with `Nat.sqrt`: the radicand is a mean of squares of signed
16-bit samples, hence at most 2^30, a range on which the float square root is
exact.  The float threshold `0.35` is modelled as the exact rational `35/100`
(the two comparisons agree for every ratio of frame counts reachable here).
-/

namespace Chatbot

/-! ### Server: RMS of a little-endian signed 16-bit frame
(`frame_rms_s16le` in `src/server/server.py`). -/

/-- One sample: `v = frame[i] | (frame[i+1] << 8)`, sign-fixed via
`if v & 0x8000: v -= 0x10000`. -/
def s16_of_le (b0 b1 : Nat) : Int :=
  let v := b0 ||| (b1 <<< 8)
  if v &&& 0x8000 ≠ 0 then (v : Int) - 0x10000 else (v : Int)

/-- `acc`: the sum of squares over whole sample pairs (a trailing odd byte is
dropped, as `range(0, samples * 2, 2)` does). -/
def sumSquares : List Nat → Nat
  | b0 :: b1 :: rest => (s16_of_le b0 b1 * s16_of_le b0 b1).toNat + sumSquares rest
  | _ => 0

/-- `frame_rms_s16le(frame)`: integer RMS of a frame of bytes. -/
def frame_rms_s16le (frame : List Nat) : Nat :=
  let samples := frame.length / 2
  if samples ≤ 0 then 0
  else Nat.sqrt (sumSquares frame / samples)

/-! ### Server: `TurnDetector` -/

inductive TurnEvent
  | turn_start
  | turn_end
deriving DecidableEq, Repr

/-- Constructor parameters of `TurnDetector` (threshold and the two debounce
counts). -/
structure TurnDetector where
  threshold : Nat := 900
  speech_frames : Nat := 6
  silence_frames : Nat := 18
deriving DecidableEq, Repr

/-- Mutable fields of a `TurnDetector` instance (`_active`, `_speech_count`,
`_silence_count`). -/
structure TurnDetector.State where
  active : Bool
  speech_count : Nat
  silence_count : Nat
deriving DecidableEq, Repr

/-- The state right after `__init__`. -/
def TurnDetector.State.init : TurnDetector.State := ⟨false, 0, 0⟩

/-- The branch structure of `TurnDetector.feed` once `voiced` has been
computed. -/
def TurnDetector.stepB (cfg : TurnDetector) (st : TurnDetector.State)
    (voiced : Bool) : TurnDetector.State × Option TurnEvent :=
  if st.active = false then
    if voiced then
      let sc := st.speech_count + 1
      if cfg.speech_frames ≤ sc then
        (⟨true, sc, 0⟩, some .turn_start)
      else
        (⟨false, sc, st.silence_count⟩, none)
    else
      (⟨false, 0, st.silence_count⟩, none)
  else
    if voiced then
      (⟨true, st.speech_count, 0⟩, none)
    else
      let sil := st.silence_count + 1
      if cfg.silence_frames ≤ sil then
        (⟨false, 0, sil⟩, some .turn_end)
      else
        (⟨true, st.speech_count, sil⟩, none)

/-- `voiced = rms >= self.threshold` for a frame. -/
def TurnDetector.voicedF (cfg : TurnDetector) (frame : List Nat) : Bool :=
  decide (cfg.threshold ≤ frame_rms_s16le frame)

/-- `TurnDetector.feed`: computes the RMS, the voiced flag, and runs the state
machine, returning the successor state together with `(event, rms, voiced)`. -/
def TurnDetector.feed (cfg : TurnDetector) (st : TurnDetector.State)
    (frame : List Nat) : TurnDetector.State × Option TurnEvent × Nat × Bool :=
  let rms := frame_rms_s16le frame
  let voiced : Bool := decide (cfg.threshold ≤ rms)
  let r := TurnDetector.stepB cfg st voiced
  (r.1, r.2, rms, voiced)

/-- Run of the detector over a list of voiced flags, collecting emitted
events in order. -/
def TurnDetector.runB (cfg : TurnDetector) :
    TurnDetector.State → List Bool → TurnDetector.State × List TurnEvent
  | st, [] => (st, [])
  | st, v :: vs =>
    let r := TurnDetector.stepB cfg st v
    let rest := TurnDetector.runB cfg r.1 vs
    (rest.1, r.2.toList ++ rest.2)

/-- Run of the detector over successive frames (repeated `feed` calls),
collecting emitted events in order. -/
def TurnDetector.run (cfg : TurnDetector) :
    TurnDetector.State → List (List Nat) → TurnDetector.State × List TurnEvent
  | st, [] => (st, [])
  | st, f :: fs =>
    let r := TurnDetector.feed cfg st f
    let rest := TurnDetector.run cfg r.1 fs
    (rest.1, r.2.1.toList ++ rest.2)

/-! ### Basic lemmas on the detector -/

theorem TurnDetector.run_eq_runB (cfg : TurnDetector) :
    ∀ (frames : List (List Nat)) (st : TurnDetector.State),
      TurnDetector.run cfg st frames
        = TurnDetector.runB cfg st (frames.map (TurnDetector.voicedF cfg)) := by
  intro frames
  induction frames with
  | nil => intro st; rfl
  | cons f fs ih =>
    intro st
    simp [TurnDetector.run, TurnDetector.runB, TurnDetector.feed,
      TurnDetector.voicedF, List.map_cons, ih]

theorem TurnDetector.runB_append (cfg : TurnDetector) :
    ∀ (xs ys : List Bool) (st : TurnDetector.State),
      TurnDetector.runB cfg st (xs ++ ys)
        = ((TurnDetector.runB cfg (TurnDetector.runB cfg st xs).1 ys).1,
           (TurnDetector.runB cfg st xs).2
             ++ (TurnDetector.runB cfg (TurnDetector.runB cfg st xs).1 ys).2) := by
  intro xs
  induction xs with
  | nil => intro ys st; simp [TurnDetector.runB]
  | cons x xs ih =>
    intro ys st
    simp [TurnDetector.runB, ih, List.append_assoc]

/-- While idle, a block of `m` voiced flags with `c + m` still below
`speech_frames` only advances the speech counter and emits nothing. -/
theorem TurnDetector.idle_voiced_run (cfg : TurnDetector) :
    ∀ (m c s : Nat), c + m < cfg.speech_frames →
      TurnDetector.runB cfg ⟨false, c, s⟩ (List.replicate m true)
        = (⟨false, c + m, s⟩, []) := by
  intro m
  induction m with
  | zero => intro c s _; simp [TurnDetector.runB]
  | succ m ih =>
    intro c s h
    have hlt : ¬ cfg.speech_frames ≤ c + 1 := by omega
    have ih' := ih (c + 1) s (by omega)
    simp [List.replicate_succ, TurnDetector.runB, TurnDetector.stepB, hlt, ih']
    omega

/-- While speaking, a block of `m` unvoiced flags with `c + m` still below
`silence_frames` only advances the silence counter and emits nothing. -/
theorem TurnDetector.speaking_silent_run (cfg : TurnDetector) :
    ∀ (m c sc : Nat), c + m < cfg.silence_frames →
      TurnDetector.runB cfg ⟨true, sc, c⟩ (List.replicate m false)
        = (⟨true, sc, c + m⟩, []) := by
  intro m
  induction m with
  | zero => intro c sc _; simp [TurnDetector.runB]
  | succ m ih =>
    intro c sc h
    have hlt : ¬ cfg.silence_frames ≤ c + 1 := by omega
    have ih' := ih (c + 1) sc (by omega)
    simp [List.replicate_succ, TurnDetector.runB, TurnDetector.stepB, hlt, ih']
    omega

/-- Boolean alternation check: events must alternate `turn_start`,
`turn_end`, `turn_start`, …, the next expected kind being determined by
whether a turn is currently open. -/
def altB : Bool → List TurnEvent → Bool
  | _, [] => true
  | false, .turn_start :: r => altB true r
  | true, .turn_end :: r => altB false r
  | _, _ => false

theorem TurnDetector.runB_alt (cfg : TurnDetector) :
    ∀ (vs : List Bool) (st : TurnDetector.State),
      altB st.active (TurnDetector.runB cfg st vs).2 = true := by
  intro vs
  induction vs with
  | nil =>
    intro st
    cases h : st.active <;> simp [TurnDetector.runB, altB]
  | cons v vs ih =>
    intro st
    rcases st with ⟨a, c, s⟩
    cases a <;> cases v
    · simpa [TurnDetector.runB, TurnDetector.stepB, altB]
        using ih ⟨false, 0, s⟩
    · by_cases h : cfg.speech_frames ≤ c + 1
      · simpa [TurnDetector.runB, TurnDetector.stepB, h, altB]
          using ih ⟨true, c + 1, 0⟩
      · simpa [TurnDetector.runB, TurnDetector.stepB, h, altB]
          using ih ⟨false, c + 1, s⟩
    · by_cases h : cfg.silence_frames ≤ s + 1
      · simpa [TurnDetector.runB, TurnDetector.stepB, h, altB]
          using ih ⟨false, 0, s + 1⟩
      · simpa [TurnDetector.runB, TurnDetector.stepB, h, altB]
          using ih ⟨true, c, s + 1⟩
    · simpa [TurnDetector.runB, TurnDetector.stepB, altB]
        using ih ⟨true, c, 0⟩

/-- A list of frames that are all voiced maps to a replicate of `true`. -/
theorem TurnDetector.map_voiced_replicate (cfg : TurnDetector)
    (fs : List (List Nat)) (b : Bool)
    (hfs : ∀ f ∈ fs, TurnDetector.voicedF cfg f = b) :
    fs.map (TurnDetector.voicedF cfg) = List.replicate fs.length b := by
  refine List.eq_replicate_iff.2 ⟨by simp, ?_⟩
  intro x hx
  obtain ⟨f, hf, rfl⟩ := List.mem_map.1 hx
  exact hfs f hf

/-- C1: debouncing of the turn detector.  From `Idle` (fresh state),
`speech_frames - 1` voiced frames followed by one unvoiced frame emit no
event at all, while exactly `speech_frames` voiced frames emit exactly one
`turn_start`, on the last frame (no event during the first
`speech_frames - 1`).  Symmetrically from `Speaking` (silence counter 0):
`silence_frames - 1` unvoiced frames followed by a voiced frame emit
nothing, and exactly `silence_frames` unvoiced frames emit exactly one
`turn_end`, on the last frame. -/
theorem turn_detector_debounce (cfg : TurnDetector)
    (fs : List (List Nat)) (g : List Nat) (vs : List (List Nat))
    (us : List (List Nat)) (v : List Nat) (ws : List (List Nat)) (sc : Nat)
    (hsf : 1 ≤ cfg.speech_frames) (hsl : 1 ≤ cfg.silence_frames)
    (hfsLen : fs.length = cfg.speech_frames - 1)
    (hfs : ∀ f ∈ fs, TurnDetector.voicedF cfg f = true)
    (hg : TurnDetector.voicedF cfg g = false)
    (hvsLen : vs.length = cfg.speech_frames)
    (hvs : ∀ f ∈ vs, TurnDetector.voicedF cfg f = true)
    (husLen : us.length = cfg.silence_frames - 1)
    (hus : ∀ f ∈ us, TurnDetector.voicedF cfg f = false)
    (hv : TurnDetector.voicedF cfg v = true)
    (hwsLen : ws.length = cfg.silence_frames)
    (hws : ∀ f ∈ ws, TurnDetector.voicedF cfg f = false) :
    (TurnDetector.run cfg .init (fs ++ [g])).2 = []
    ∧ (TurnDetector.run cfg .init vs).2 = [.turn_start]
    ∧ (TurnDetector.run cfg .init (vs.take (cfg.speech_frames - 1))).2 = []
    ∧ (TurnDetector.run cfg ⟨true, sc, 0⟩ (us ++ [v])).2 = []
    ∧ (TurnDetector.run cfg ⟨true, sc, 0⟩ ws).2 = [.turn_end]
    ∧ (TurnDetector.run cfg ⟨true, sc, 0⟩ (ws.take (cfg.silence_frames - 1))).2 = [] := by
  have hIdle := TurnDetector.idle_voiced_run cfg (cfg.speech_frames - 1) 0 0
    (by omega)
  have hSpk := TurnDetector.speaking_silent_run cfg (cfg.silence_frames - 1) 0 sc
    (by omega)
  refine ⟨?_, ?_, ?_, ?_, ?_, ?_⟩
  · rw [TurnDetector.run_eq_runB]
    rw [List.map_append,
      TurnDetector.map_voiced_replicate cfg fs true hfs, hfsLen]
    rw [TurnDetector.runB_append]
    simp [TurnDetector.State.init, hIdle, TurnDetector.runB,
      TurnDetector.stepB, hg]
  · rw [TurnDetector.run_eq_runB,
      TurnDetector.map_voiced_replicate cfg vs true hvs, hvsLen]
    have hsplit : cfg.speech_frames = (cfg.speech_frames - 1) + 1 := by omega
    rw [hsplit, List.replicate_succ', TurnDetector.runB_append]
    have hge : cfg.speech_frames ≤ cfg.speech_frames - 1 + 1 := by omega
    simp [TurnDetector.State.init, hIdle, TurnDetector.runB,
      TurnDetector.stepB, hge]
  · rw [TurnDetector.run_eq_runB]
    have htake : (vs.take (cfg.speech_frames - 1)).map (TurnDetector.voicedF cfg)
        = List.replicate (cfg.speech_frames - 1) true := by
      have hmem : ∀ f ∈ vs.take (cfg.speech_frames - 1),
          TurnDetector.voicedF cfg f = true := by
        intro f hf
        exact hvs f (List.mem_of_mem_take hf)
      rw [TurnDetector.map_voiced_replicate cfg _ true hmem]
      congr 1
      simp [hvsLen]
    rw [htake]
    simp [TurnDetector.State.init, hIdle]
  · rw [TurnDetector.run_eq_runB]
    rw [List.map_append,
      TurnDetector.map_voiced_replicate cfg us false hus, husLen]
    rw [TurnDetector.runB_append]
    simp [hSpk, TurnDetector.runB, TurnDetector.stepB, hv]
  · rw [TurnDetector.run_eq_runB,
      TurnDetector.map_voiced_replicate cfg ws false hws, hwsLen]
    have hsplit : cfg.silence_frames = (cfg.silence_frames - 1) + 1 := by omega
    rw [hsplit, List.replicate_succ', TurnDetector.runB_append]
    have hge : cfg.silence_frames ≤ cfg.silence_frames - 1 + 1 := by omega
    simp [hSpk, TurnDetector.runB, TurnDetector.stepB, hge]
  · rw [TurnDetector.run_eq_runB]
    have htake : (ws.take (cfg.silence_frames - 1)).map (TurnDetector.voicedF cfg)
        = List.replicate (cfg.silence_frames - 1) false := by
      have hmem : ∀ f ∈ ws.take (cfg.silence_frames - 1),
          TurnDetector.voicedF cfg f = false := by
        intro f hf
        exact hws f (List.mem_of_mem_take hf)
      rw [TurnDetector.map_voiced_replicate cfg _ false hmem]
      congr 1
      simp [hwsLen]
    rw [htake]
    simp [hSpk]

/-- A concrete voiced frame: one little-endian sample of value 1000, whose
RMS is 1000 ≥ 900. -/
def voicedFrame : List Nat := [232, 3]

/-- A concrete unvoiced frame: one zero sample, RMS 0 < 900. -/
def silentFrame : List Nat := [0, 0]

theorem frame_rms_voicedFrame : frame_rms_s16le voicedFrame = 1000 := by
  have h : sumSquares [232, 3] = 1000 * 1000 := by rfl
  have h2 : Nat.sqrt 1000000 = 1000 := by
    rw [show (1000000 : Nat) = 1000 * 1000 by norm_num]
    exact Nat.sqrt_eq 1000
  simp [frame_rms_s16le, voicedFrame, h, h2]

theorem frame_rms_silentFrame : frame_rms_s16le silentFrame = 0 := by
  have h : sumSquares [0, 0] = 0 := by rfl
  simp [frame_rms_s16le, silentFrame, h]

theorem voicedF_voicedFrame :
    TurnDetector.voicedF {} voicedFrame = true := by
  simp [TurnDetector.voicedF, frame_rms_voicedFrame]

theorem voicedF_silentFrame :
    TurnDetector.voicedF {} silentFrame = false := by
  simp [TurnDetector.voicedF, frame_rms_silentFrame]

/-- Witness for C1 at the default detector configuration
(threshold 900, speech_frames 6, silence_frames 18). -/
theorem turn_detector_debounce_witness :
    (TurnDetector.run {} .init (List.replicate 5 voicedFrame ++ [silentFrame])).2 = []
    ∧ (TurnDetector.run {} .init (List.replicate 6 voicedFrame)).2 = [.turn_start]
    ∧ (TurnDetector.run {} .init ((List.replicate 6 voicedFrame).take 5)).2 = []
    ∧ (TurnDetector.run {} ⟨true, 6, 0⟩ (List.replicate 17 silentFrame ++ [voicedFrame])).2 = []
    ∧ (TurnDetector.run {} ⟨true, 6, 0⟩ (List.replicate 18 silentFrame)).2 = [.turn_end]
    ∧ (TurnDetector.run {} ⟨true, 6, 0⟩ ((List.replicate 18 silentFrame).take 17)).2 = [] := by
  have hv : ∀ n, ∀ f ∈ List.replicate n voicedFrame,
      TurnDetector.voicedF {} f = true := by
    intro n f hf
    rw [List.eq_of_mem_replicate hf]
    exact voicedF_voicedFrame
  have hs : ∀ n, ∀ f ∈ List.replicate n silentFrame,
      TurnDetector.voicedF {} f = false := by
    intro n f hf
    rw [List.eq_of_mem_replicate hf]
    exact voicedF_silentFrame
  have h := turn_detector_debounce {} (List.replicate 5 voicedFrame) silentFrame
    (List.replicate 6 voicedFrame) (List.replicate 17 silentFrame) voicedFrame
    (List.replicate 18 silentFrame) 6
    (by decide) (by decide) (by simp) (hv 5) voicedF_silentFrame
    (by simp) (hv 6) (by simp) (hs 17) voicedF_voicedFrame (by simp) (hs 18)
  simpa using h

/-- C10: the detector's events strictly alternate.  A `turn_start` is only
emitted from `Idle` and moves the detector to `Speaking`; a `turn_end` is
only emitted from `Speaking` and moves it back to `Idle`; and over any frame
sequence from the initial state the emitted event list alternates
`turn_start`, `turn_end`, `turn_start`, … (so no `turn_end` precedes the
first `turn_start`, and exactly one `turn_end` separates consecutive
`turn_start`s).  Each `feed` emits at most one event by the type of
`TurnDetector.feed`. -/
theorem turn_detector_alternation (cfg : TurnDetector) :
    (∀ (st : TurnDetector.State) (v : Bool),
        (TurnDetector.stepB cfg st v).2 = some .turn_start →
          st.active = false ∧ (TurnDetector.stepB cfg st v).1.active = true)
    ∧ (∀ (st : TurnDetector.State) (v : Bool),
        (TurnDetector.stepB cfg st v).2 = some .turn_end →
          st.active = true ∧ (TurnDetector.stepB cfg st v).1.active = false)
    ∧ (∀ frames : List (List Nat),
        altB false (TurnDetector.run cfg .init frames).2 = true) := by
  refine ⟨?_, ?_, ?_⟩
  · intro st v h
    rcases st with ⟨a, c, s⟩
    cases a <;> cases v <;>
      simp [TurnDetector.stepB] at h ⊢ <;>
      (split at h <;> simp_all [TurnDetector.stepB])
  · intro st v h
    rcases st with ⟨a, c, s⟩
    cases a <;> cases v <;>
      simp [TurnDetector.stepB] at h ⊢ <;>
      (split at h <;> simp_all [TurnDetector.stepB])
  · intro frames
    rw [TurnDetector.run_eq_runB]
    exact TurnDetector.runB_alt cfg (frames.map (TurnDetector.voicedF cfg))
      TurnDetector.State.init

/-- Witness for C10: at the default configuration, the step from an idle
state with five voiced frames counted emits `turn_start` and the
implications of the theorem apply there. -/
theorem turn_detector_alternation_witness :
    (⟨false, 5, 0⟩ : TurnDetector.State).active = false
    ∧ (TurnDetector.stepB {} ⟨false, 5, 0⟩ true).1.active = true :=
  (turn_detector_alternation {}).1 ⟨false, 5, 0⟩ true (by decide)

/-! ### Client: `WebsocketClient._write_frame`
(`src/esp32_client/uwebsockets/client.py`).  The random 4-byte mask key is an
input of the embedding. -/

/-- The masked payload bytes: the byte at absolute offset `i` is
`payload[i + j] ^ mask_key[(i + j) & 3]`.  The source masks in 256-byte
chunks purely to bound RAM; the byte stream written to the socket is this
sequence. -/
def maskBytes (mask_key : List Nat) : Nat → List Nat → List Nat
  | _, [] => []
  | i, b :: rest => (b ^^^ mask_key.getD (i &&& 3) 0) :: maskBytes mask_key (i + 1) rest

/-- The frame header `hdr`: the FIN|opcode byte, then the mask-bit/length
byte and the extended length bytes when present. -/
def frameHeader (opcode length : Nat) : List Nat :=
  let b0 := 0x80 ||| (opcode &&& 0x0F)
  if length < 126 then
    [b0, 0x80 ||| length]
  else if length < 65536 then
    [b0, 0x80 ||| 126, (length >>> 8) &&& 0xFF, length &&& 0xFF]
  else
    [b0, 0x80 ||| 127,
     (length >>> 56) &&& 0xFF, (length >>> 48) &&& 0xFF,
     (length >>> 40) &&& 0xFF, (length >>> 32) &&& 0xFF,
     (length >>> 24) &&& 0xFF, (length >>> 16) &&& 0xFF,
     (length >>> 8) &&& 0xFF, length &&& 0xFF]

/-- `_write_frame`: the full byte stream written to the socket — the header,
the 4-byte mask key, then the masked payload. -/
def write_frame (opcode : Nat) (mask_key payload : List Nat) : List Nat :=
  frameHeader opcode payload.length ++ mask_key ++ maskBytes mask_key 0 payload

/-- XOR-ing masked bytes again with the same key recovers the input, from
any starting offset. -/
theorem maskBytes_involutive (mask_key : List Nat) :
    ∀ (xs : List Nat) (i : Nat),
      maskBytes mask_key i (maskBytes mask_key i xs) = xs := by
  intro xs
  induction xs with
  | nil => intro i; rfl
  | cons b rest ih =>
    intro i
    simp [maskBytes, Nat.xor_cancel_right, ih (i + 1)]

theorem lor128_bits (l : Nat) (h : l < 128) :
    (128 ||| l) &&& 128 = 128 ∧ (128 ||| l) &&& 127 = l := by
  interval_cases l <;> exact ⟨by decide, by decide⟩

theorem and255_eq_mod (x : Nat) : x &&& 255 = x % 256 := by
  have h := Nat.and_pow_two_sub_one_eq_mod x 8
  norm_num at h
  exact h

/-- C2: the client frame encoder sets the FIN bit and the mask bit, encodes
the payload length in the 7-bit field (< 126), the 16-bit big-endian
extension with marker 126 (< 65536), or the 64-bit big-endian extension
with marker 127 (otherwise), and the masked payload XOR-ed again with the
frame's own mask key reproduces the original payload. -/
theorem write_frame_spec (opcode : Nat) (mask_key payload : List Nat)
    (hkey : mask_key.length = 4) (hlen : payload.length < 2 ^ 64) :
    (write_frame opcode mask_key payload).getD 0 0 &&& 0x80 = 0x80
    ∧ (write_frame opcode mask_key payload).getD 1 0 &&& 0x80 = 0x80
    ∧ (payload.length < 126 →
        (write_frame opcode mask_key payload).getD 1 0 &&& 0x7F = payload.length
        ∧ (write_frame opcode mask_key payload).drop 2
            = mask_key ++ maskBytes mask_key 0 payload)
    ∧ (126 ≤ payload.length → payload.length < 65536 →
        (write_frame opcode mask_key payload).getD 1 0 &&& 0x7F = 126
        ∧ (write_frame opcode mask_key payload).getD 2 0 * 256
            + (write_frame opcode mask_key payload).getD 3 0 = payload.length
        ∧ (write_frame opcode mask_key payload).drop 4
            = mask_key ++ maskBytes mask_key 0 payload)
    ∧ (65536 ≤ payload.length →
        (write_frame opcode mask_key payload).getD 1 0 &&& 0x7F = 127
        ∧ (write_frame opcode mask_key payload).getD 2 0 * 2 ^ 56
            + (write_frame opcode mask_key payload).getD 3 0 * 2 ^ 48
            + (write_frame opcode mask_key payload).getD 4 0 * 2 ^ 40
            + (write_frame opcode mask_key payload).getD 5 0 * 2 ^ 32
            + (write_frame opcode mask_key payload).getD 6 0 * 2 ^ 24
            + (write_frame opcode mask_key payload).getD 7 0 * 2 ^ 16
            + (write_frame opcode mask_key payload).getD 8 0 * 2 ^ 8
            + (write_frame opcode mask_key payload).getD 9 0 = payload.length
        ∧ (write_frame opcode mask_key payload).drop 10
            = mask_key ++ maskBytes mask_key 0 payload)
    ∧ maskBytes mask_key 0 (maskBytes mask_key 0 payload) = payload := by
  have hop : opcode &&& 15 < 128 :=
    Nat.lt_of_le_of_lt Nat.and_le_right (by norm_num)
  have hfin := (lor128_bits (opcode &&& 15) hop).1
  refine ⟨?_, ?_, ?_, ?_, ?_, maskBytes_involutive mask_key payload 0⟩
  · by_cases h1 : payload.length < 126
    · simpa [write_frame, frameHeader, h1] using hfin
    · by_cases h2 : payload.length < 65536 <;>
        simpa [write_frame, frameHeader, h1, h2] using hfin
  · by_cases h1 : payload.length < 126
    · have := (lor128_bits payload.length (by omega)).1
      simpa [write_frame, frameHeader, h1] using this
    · by_cases h2 : payload.length < 65536 <;>
        (simp [write_frame, frameHeader, h1, h2]; decide)
  · intro h1
    refine ⟨?_, ?_⟩
    · have := (lor128_bits payload.length (by omega)).2
      simpa [write_frame, frameHeader, h1] using this
    · simp [write_frame, frameHeader, h1]
  · intro h1 h2
    have h1' : ¬ payload.length < 126 := by omega
    refine ⟨by simp [write_frame, frameHeader, h1', h2]; decide, ?_, ?_⟩
    · have e1 : payload.length >>> 8 = payload.length / 2 ^ 8 :=
        Nat.shiftRight_eq_div_pow _ _
      simp [write_frame, frameHeader, h1', h2, and255_eq_mod, e1]
      omega
    · simp [write_frame, frameHeader, h1', h2]
  · intro h1
    have h1' : ¬ payload.length < 126 := by omega
    have h2' : ¬ payload.length < 65536 := by omega
    refine ⟨by simp [write_frame, frameHeader, h1', h2']; decide, ?_, ?_⟩
    · have e : ∀ k, payload.length >>> k = payload.length / 2 ^ k := fun k =>
        Nat.shiftRight_eq_div_pow _ _
      simp [write_frame, frameHeader, h1', h2', and255_eq_mod, e]
      omega
    · simp [write_frame, frameHeader, h1', h2']

/-- Witness for C2: a 3-byte payload with mask key `[1, 2, 3, 4]`. -/
theorem write_frame_spec_witness :
    (write_frame 2 [1, 2, 3, 4] [5, 6, 7]).getD 0 0 &&& 0x80 = 0x80
    ∧ (write_frame 2 [1, 2, 3, 4] [5, 6, 7]).getD 1 0 &&& 0x7F = 3
    ∧ maskBytes [1, 2, 3, 4] 0 (maskBytes [1, 2, 3, 4] 0 [5, 6, 7]) = [5, 6, 7] := by
  have h := write_frame_spec 2 [1, 2, 3, 4] [5, 6, 7] (by decide) (by decide)
  exact ⟨h.1, (h.2.2.1 (by decide)).1, h.2.2.2.2.2⟩

/-! ### Client DSP (`src/esp32_client/main.py`): constants, auto-gain,
DC block, reconnect backoff. -/

def TARGET_PEAK : Int := 12000
def AUTO_GAIN_MIN_Q8 : Int := 64
def AUTO_GAIN_MAX_Q8 : Int := 1024
def ATTACK_STEP_Q8 : Int := 8
def RELEASE_STEP_Q8 : Int := 20
def DC_BLOCK_A_Q15 : Int := 32440
def RECONNECT_SECONDS_MIN : Nat := 2
def RECONNECT_SECONDS_MAX : Nat := 20

/-- `_update_auto_gain(peak)` as a function of the current gain
(`_auto_gain_q8`, first argument) and the observed chunk peak, returning the
new gain.  `(TARGET_PEAK << 8) // peak` is `TARGET_PEAK * 256` floor-divided
by `peak`; `AUTO_GAIN` is `True` in the source, so the early `return` for a
disabled AGC is not modelled. -/
def update_auto_gain (auto_gain_q8 : Int) (peak : Int) : Int :=
  if peak ≤ 0 then auto_gain_q8
  else
    let desired_q8 := Int.fdiv (TARGET_PEAK * 256) peak
    let g :=
      if auto_gain_q8 < desired_q8 then
        min (auto_gain_q8 + ATTACK_STEP_Q8) desired_q8
      else
        max (auto_gain_q8 - RELEASE_STEP_Q8) desired_q8
    if g < AUTO_GAIN_MIN_Q8 then AUTO_GAIN_MIN_Q8
    else if AUTO_GAIN_MAX_Q8 < g then AUTO_GAIN_MAX_Q8
    else g

/-- C3 counterexample: the gain 100 lies in `[gain_min_q8, gain_max_q8]`,
the observed peak equals `target_peak` exactly, yet the update moves the
gain from 100 to 108 (one attack step toward the unit gain 256). -/
theorem update_auto_gain_counterexample :
    AUTO_GAIN_MIN_Q8 ≤ 100 ∧ (100 : Int) ≤ AUTO_GAIN_MAX_Q8
    ∧ update_auto_gain 100 TARGET_PEAK = 108 := by
  refine ⟨by decide, by decide, by decide⟩

/-- C3 amended: a chunk peak `≤ 0` always skips the update, and a chunk peak
of exactly `target_peak` leaves the gain unchanged when the gain is the unit
gain 256 (in general such a peak steps the gain toward 256, as the
counterexample shows). -/
theorem update_auto_gain_fixed (gain peak : Int) :
    (peak ≤ 0 → update_auto_gain gain peak = gain)
    ∧ (peak = TARGET_PEAK → gain = 256 → update_auto_gain gain peak = gain) := by
  constructor
  · intro h
    simp [update_auto_gain, h]
  · rintro rfl rfl
    decide

/-- Witness for the amended C3 at gain 77 / peak 0 and at the unit gain. -/
theorem update_auto_gain_fixed_witness :
    update_auto_gain 77 0 = 77 ∧ update_auto_gain 256 TARGET_PEAK = 256 :=
  ⟨(update_auto_gain_fixed 77 0).1 (by decide),
   (update_auto_gain_fixed 256 TARGET_PEAK).2 rfl rfl⟩

/-- The module-level DC-block state (`_prev_x`, `_prev_y`). -/
structure DcState where
  prev_x : Int
  prev_y : Int
deriving DecidableEq, Repr

/-- One `_dc_block(x)` call:
`y = x - _prev_x + ((DC_BLOCK_A_Q15 * _prev_y) >> 15)`; Python's `>>` on a
possibly negative `int` is floor division by `2 ** 15`, i.e. `Int.fdiv`. -/
def dc_block (st : DcState) (x : Int) : Int × DcState :=
  let y := x - st.prev_x + Int.fdiv (DC_BLOCK_A_Q15 * st.prev_y) (2 ^ 15)
  (y, ⟨x, y⟩)

/-- State after feeding `n` copies of the constant `c` from the reset state
(`_prev_x = _prev_y = 0`). -/
def dcIter (c : Int) : Nat → DcState
  | 0 => ⟨0, 0⟩
  | n + 1 => (dc_block (dcIter c n) c).2

/-- The filter output at the `n`-th sample (`n ≥ 1`) of the constant-`c`
stream; `dcOut c 0 = 0` is the reset value. -/
def dcOut (c : Int) (n : Nat) : Int := (dcIter c n).prev_y

theorem dcIter_prev_x (c : Int) : ∀ n, 1 ≤ n → (dcIter c n).prev_x = c := by
  intro n hn
  cases n with
  | zero => omega
  | succ m => simp [dcIter, dc_block]

theorem dcOut_one (c : Int) : dcOut c 1 = c := by
  simp [dcOut, dcIter, dc_block, Int.zero_fdiv]

theorem dcOut_succ (c : Int) (n : Nat) (hn : 1 ≤ n) :
    dcOut c (n + 1) = Int.fdiv (DC_BLOCK_A_Q15 * dcOut c n) (2 ^ 15) := by
  simp [dcOut, dcIter, dc_block, dcIter_prev_x c n hn]

/-- The Nat form of the recurrence `y ↦ (32440 * y) >> 15` on nonnegative
values. -/
def gN (m : Nat) : Nat := 32440 * m / 2 ^ 15

theorem gN_lt (m : Nat) (hm : 1 ≤ m) : gN m < m := by
  have hlt : 32440 * m < m * 2 ^ 15 := by
    have h15 : (2 : Nat) ^ 15 = 32768 := by norm_num
    rw [h15]
    omega
  exact (Nat.div_lt_iff_lt_mul (show 0 < 2 ^ 15 by norm_num)).2 hlt

theorem gN_iter_zero : ∀ (n m : Nat), m ≤ n → gN^[n] m = 0 := by
  intro n
  induction n with
  | zero =>
    intro m hm
    have h0 : m = 0 := by omega
    subst h0
    rfl
  | succ n ih =>
    intro m hm
    rw [Function.iterate_succ_apply]
    by_cases h0 : m = 0
    · subst h0
      exact ih 0 (by omega)
    · exact ih (gN m) (by have := gN_lt m (by omega); omega)

theorem fdiv_ofNat (a b : Nat) :
    Int.fdiv (a : Int) (b : Int) = ((a / b : Nat) : Int) := by
  cases a with
  | zero => rw [Nat.zero_div]; rfl
  | succ a => rfl

theorem dcOut_eq_iter (c : Int) (hc : 0 ≤ c) :
    ∀ k : Nat, dcOut c (1 + k) = ((gN^[k] c.toNat : Nat) : Int) := by
  intro k
  induction k with
  | zero =>
    simp [dcOut_one, Int.toNat_of_nonneg hc]
  | succ k ih =>
    have h1 : (1 : Nat) ≤ 1 + k := by omega
    have h2 : 1 + (k + 1) = (1 + k) + 1 := by omega
    rw [h2, dcOut_succ c (1 + k) h1, ih, Function.iterate_succ_apply']
    have hcast : DC_BLOCK_A_Q15 * ((gN^[k] c.toNat : Nat) : Int)
        = ((32440 * gN^[k] c.toNat : Nat) : Int) := by
      push_cast [DC_BLOCK_A_Q15]
      ring
    have hpow : ((2 : Int) ^ 15) = (((2 ^ 15 : Nat) : Int)) := by norm_num
    rw [hcast, hpow, fdiv_ofNat]
    rfl

/-- C4 amended: for every constant input `c ≥ 0`, the DC-block output is 0
at every sample from index `c + 1` on (bounded-time convergence to 0); for
negative constants the floor semantics of the arithmetic shift make the
output stall at a negative value instead (see the counterexample). -/
theorem dc_block_const_nonneg_converges (c : Int) (hc : 0 ≤ c) :
    ∀ n : Nat, c.toNat + 1 ≤ n → dcOut c n = 0 := by
  intro n hn
  obtain ⟨k, rfl⟩ : ∃ k, n = 1 + k := ⟨n - 1, by omega⟩
  rw [dcOut_eq_iter c hc k, gN_iter_zero k c.toNat (by omega)]
  rfl

/-- Witness for the amended C4: constant input 3 reaches 0 at sample 4. -/
theorem dc_block_const_nonneg_converges_witness : dcOut 3 4 = 0 :=
  dc_block_const_nonneg_converges 3 (by decide) 4 (by decide)

/-- With the constant input −1 the filter output equals −1 at every sample
from the first on. -/
theorem dcOut_neg_one_const : ∀ n : Nat, dcOut (-1) (n + 1) = -1 := by
  intro n
  induction n with
  | zero => decide
  | succ m ih =>
    have h := dcOut_succ (-1) (m + 1) (by omega)
    rw [h, ih]
    decide

/-- C4 counterexample, at the concrete constant input −1: after the first
sample the filter state is `⟨-1, -1⟩` with output −1, and that state is a
fixed point of the step (`(32440 * -1) >> 15 = -1` because the shift
floors), so the output is −1 at every later sample as well and never
becomes 0. -/
theorem dc_block_const_neg_one_never_zero :
    dcOut (-1) 1 = -1
    ∧ dcIter (-1) 1 = ⟨-1, -1⟩
    ∧ dc_block ⟨-1, -1⟩ (-1) = (-1, ⟨-1, -1⟩) := by
  decide

/-- The delay slept before the `(k+1)`-st reconnection in `main`'s loop:
`retry_s` starts at `RECONNECT_SECONDS_MIN` and after every
`stream_audio_once` session — successful or not, since that function
swallows every exception — is doubled and capped at
`RECONNECT_SECONDS_MAX`; no code path resets it. -/
def reconnectDelay : Nat → Nat
  | 0 => RECONNECT_SECONDS_MIN
  | k + 1 => min (reconnectDelay k * 2) RECONNECT_SECONDS_MAX

theorem reconnectDelay_closed : ∀ k, reconnectDelay k = min (2 ^ (k + 1)) 20 := by
  intro k
  induction k with
  | zero => rfl
  | succ k ih =>
    have hp : (2 : Nat) ^ (k + 1 + 1) = 2 ^ (k + 1) * 2 := by ring
    have h1 : (1 : Nat) ≤ 2 ^ (k + 1) := Nat.one_le_two_pow
    simp only [reconnectDelay, RECONNECT_SECONDS_MAX, ih]
    omega

/-- C5: the delay before the `n`-th reconnection (`n ≥ 1`) is
`min (2 ^ n) 20` — it starts at the 2-second minimum, doubles after every
session, caps at 20 s — and the delay sequence is non-decreasing for the
whole process lifetime (it is a function of the session index alone; session
outcomes cannot reset it). -/
theorem reconnect_backoff (n : Nat) (hn : 1 ≤ n) :
    reconnectDelay (n - 1) = min (2 ^ n) 20
    ∧ ∀ k, reconnectDelay k ≤ reconnectDelay (k + 1) := by
  constructor
  · have h : n - 1 + 1 = n := by omega
    rw [reconnectDelay_closed, h]
  · intro k
    rw [reconnectDelay_closed, reconnectDelay_closed]
    have h1 : (2 : Nat) ^ (k + 1) ≤ 2 ^ (k + 1 + 1) :=
      Nat.pow_le_pow_right (by norm_num) (by omega)
    omega

/-- Witness for C5: before the 5th reconnection the delay is
`min (2 ^ 5) 20 = 20`. -/
theorem reconnect_backoff_witness : reconnectDelay 4 = min (2 ^ 5) 20 :=
  (reconnect_backoff 5 (by decide)).1

/-! ### Server: `TurnStats`, the quality gate, and the per-message behaviour
of `handle_ws_record` and `handle_ws_assistant`. -/

/-- `TurnStats` accumulator. -/
structure TurnStats where
  total_frames : Nat
  voiced_frames : Nat
  max_rms : Nat
  rms_sum : Nat
deriving DecidableEq, Repr

def TurnStats.init : TurnStats := ⟨0, 0, 0, 0⟩

/-- `TurnStats.add(rms, voiced)`. -/
def TurnStats.add (s : TurnStats) (rms : Nat) (voiced : Bool) : TurnStats :=
  { total_frames := s.total_frames + 1
    voiced_frames := if voiced then s.voiced_frames + 1 else s.voiced_frames
    max_rms := if s.max_rms < rms then rms else s.max_rms
    rms_sum := s.rms_sum + rms }

/-- The `voiced_ratio` property (named `voiced_frac` here): exact rational
model of the float division `voiced_frames / total_frames`, 0.0 when there
are no frames. -/
def TurnStats.voiced_frac (s : TurnStats) : ℚ :=
  if s.total_frames ≤ 0 then 0
  else (s.voiced_frames : ℚ) / (s.total_frames : ℚ)

/-- The `mean_rms` property (floor division). -/
def TurnStats.mean_rms (s : TurnStats) : Nat :=
  if s.total_frames ≤ 0 then 0 else s.rms_sum / s.total_frames

structure AudioConfig where
  sample_rate : Int
  bits : Int
  channels : Int
deriving DecidableEq, Repr

/-- `default_audio_config()`. -/
def default_audio_config : AudioConfig := ⟨16000, 16, 1⟩

/-- The reason record built by `should_drop_turn` (its `voiced_ratio` field
is `round(voiced_ratio, 3)` in the source, a display-only rounding of the
exact ratio kept here). -/
structure DropInfo where
  turn_ms : Nat
  voiced_frac : ℚ
  max_rms : Nat
  mean_rms : Nat
  too_short : Bool
  too_unvoiced : Bool
  too_quiet : Bool
deriving DecidableEq, Repr

/-- `should_drop_turn(stats, cfg)`: the decision and the reason record.
`cfg` is accepted and unused, as in the source. -/
def should_drop_turn (stats : TurnStats) (cfg : AudioConfig)
    (min_turn_ms : Nat := 350) (min_voiced_frac : ℚ := 35 / 100)
    (min_peak_rms : Nat := 1200) : Bool × DropInfo :=
  let frame_ms := 20
  let turn_ms := stats.total_frames * frame_ms
  let too_short := decide (turn_ms < min_turn_ms)
  let too_unvoiced := decide (stats.voiced_frac < min_voiced_frac)
  let too_quiet := decide (stats.max_rms < min_peak_rms)
  (too_short || too_unvoiced || too_quiet,
   ⟨turn_ms, stats.voiced_frac, stats.max_rms, stats.mean_rms,
    too_short, too_unvoiced, too_quiet⟩)

/-- Python's `pat in s` on strings. -/
def strContains (s pat : String) : Bool := decide (pat.toList <:+: s.toList)

/-- `local_llm_reply(user_text)`; `now` stands for
`time.strftime("%H:%M", time.localtime())`, the only impure input. -/
def local_llm_reply (user_text : String) (now : String) : String :=
  if user_text = "" then "我没听清楚，你可以再说一遍。"
  else if strContains user_text "几点" || strContains user_text.toLower "time" then
    "现在时间是 " ++ now ++ "。"
  else if strContains user_text "天气" then
    "我现在没有联网天气插件，但我可以先帮你记录问题。"
  else if strContains user_text "你是谁" then
    "我是你的 ESP32 语音助手，基于 Whisper 识别。"
  else "收到：" ++ user_text

/-- The observable outcome of one `self._model.transcribe(...)` call: the
stripped text, or the exception it raised. -/
abbrev ModelResult := Except String String

/-- `WhisperASR.transcribe`: returns `""` when the backend is disabled (a
load failure was already caught in `__init__` and only cleared `enabled`);
otherwise the model outcome — a model exception propagates to the caller,
nothing catches it here. -/
def WhisperASR.transcribe (enabled : Bool) (model_result : ModelResult) :
    Except String String :=
  if enabled = false then .ok "" else model_result

/-- Control messages the assistant handler sends to the client. -/
inductive OutMsg
  | asr_skipped (reason : String) (meta : DropInfo)
  | asr_status (status : String)
  | asr_result (text : String)
  | assistant_reply (text : String)
  | barge_in (reason : String)
deriving DecidableEq, Repr

/-- External inputs of the assistant handler: whether Whisper is enabled,
the outcome the model would produce for the current turn file, and the
wall-clock string used by `local_llm_reply`. -/
structure AsrEnv where
  enabled : Bool
  model_result : ModelResult
  now : String
deriving Repr

/-- The `turn_end` block of `handle_ws_assistant` (lines 319–348): quality
gate, acknowledgement, ASR, reply.  Returns the control messages sent in
order, the exception that aborts the handler (if any; only `ConnectionClosed`
is caught by the handler, so a model exception is fatal to the connection),
and whether `tts_playing` is set to `True`. -/
def turn_end_process (env : AsrEnv) (turn_opened : Bool) (stats : TurnStats)
    (cfg : AudioConfig) : List OutMsg × Option String × Bool :=
  let d := should_drop_turn stats cfg
  if d.1 then
    ([.asr_skipped "noise" d.2], none, false)
  else
    match (if env.enabled && turn_opened then
             WhisperASR.transcribe env.enabled env.model_result
           else .ok "") with
    | .error e => ([.asr_status "processing"], some e, false)
    | .ok t =>
      let user_text := if t = "" then "（识别失败或未安装 whisper）" else t
      let assistant_text := local_llm_reply user_text env.now
      ([.asr_status "processing", .asr_result user_text,
        .assistant_reply assistant_text], none, true)

/-- The value a `start` field holds in the JSON object, as far as
`int(payload.get(key, default))` can tell: the key is absent (so the current
config value is used and `int()` of it succeeds), the key is present with a
value `int()` converts to `n`, or the key is present with a value `int()`
cannot convert — then `int()` raises `ValueError`/`TypeError`. -/
inductive JsonField
  | absent
  | int (n : Int)
  | bad
deriving DecidableEq, Repr

/-- `int(f if present else default)`, propagating the `int()` exception. -/
def JsonField.toInt (f : JsonField) (dflt : Int) : Except String Int :=
  match f with
  | .absent => .ok dflt
  | .int n => .ok n
  | .bad => .error "ValueError: int() conversion failed"

/-- The outcome of `json.loads` on a text frame, as far as the handlers
inspect it.
* `invalid`: `json.loads` raised `JSONDecodeError` (the only error the
  handlers catch).
* `nonObject`: the text is valid JSON but not an object (`null`, a number,
  a string, an array, a bool) — `payload.get("type")` then raises
  `AttributeError`, which nothing catches.
* `object t sr bits ch`: a JSON object; `t` is its `"type"` value when that
  is a string (a present but non-string `"type"` compares unequal to
  `"start"` and `"stop"` exactly like an absent one, so both are `none`),
  and the three `start` fields as seen by `int()`. -/
inductive TextPayload
  | invalid
  | nonObject
  | object (msg_type : Option String) (sample_rate bits channels : JsonField)
deriving DecidableEq, Repr

/-- One inbound WebSocket message: a text frame or a binary audio frame. -/
inductive InMsg
  | text (payload : TextPayload)
  | binary (frame : List Nat)
deriving DecidableEq, Repr

/-- The `cfg` dict built by a `start` message (in both handlers): the three
`int(payload.get(...))` conversions in source order, the first failure
raising out of the handler. -/
def start_cfg (sr bits ch : JsonField) (cfg : AudioConfig) :
    Except String AudioConfig :=
  match sr.toInt cfg.sample_rate with
  | .error e => .error e
  | .ok a =>
    match bits.toInt cfg.bits with
    | .error e => .error e
    | .ok b =>
      match ch.toInt cfg.channels with
      | .error e => .error e
      | .ok c => .ok ⟨a, b, c⟩

/-- State of one `handle_ws_record` connection: current config, the open
WAV sink (the config it was opened with and the bytes written), and
`total_bytes`. -/
structure RecordSession where
  cfg : AudioConfig
  sink : Option (AudioConfig × List Nat)
  total_bytes : Nat
deriving DecidableEq, Repr

def RecordSession.init : RecordSession := ⟨default_audio_config, none, 0⟩

/-- One loop iteration of `handle_ws_record`: successor state, whether the
loop continues, the log lines printed, and the uncaught exception (if any)
that aborts the handler — the `async for` only guards against
`websockets.ConnectionClosed`, so `AttributeError` from `payload.get` on a
non-object payload and `ValueError`/`TypeError` from `int()` are fatal. -/
def record_step (s : RecordSession) (m : InMsg) :
    RecordSession × Bool × List String × Option String :=
  match m with
  | .text .invalid => (s, true, ["[warn] invalid json text message"], none)
  | .text .nonObject =>
    (s, false, [], some "AttributeError: get on non-object json value")
  | .text (.object t sr bits ch) =>
    if t = some "start" then
      match start_cfg sr bits ch s.cfg with
      | .ok cfg' =>
        ({ cfg := cfg', sink := some (cfg', []),
           total_bytes := s.total_bytes }, true, ["[start]"], none)
      | .error e => (s, false, [], some e)
    else if t = some "stop" then (s, false, ["[stop]"], none)
    else (s, true, [], none)
  | .binary f =>
    match s.sink with
    | none =>
      ({ cfg := s.cfg, sink := some (s.cfg, f),
         total_bytes := s.total_bytes + f.length }, true,
       ["[implicit-start]"], none)
    | some (c, data) =>
      ({ cfg := s.cfg, sink := some (c, data ++ f),
         total_bytes := s.total_bytes + f.length }, true, [], none)

def record_run : RecordSession → List InMsg → RecordSession
  | s, [] => s
  | s, m :: ms =>
    let r := record_step s m
    if r.2.1 then record_run r.1 ms else r.1

/-- State of one `handle_ws_assistant` connection. -/
structure AsrSession where
  cfg : AudioConfig
  det : TurnDetector.State
  raw_sink : List Nat
  turn_sink : Option (List Nat)
  turn_opened : Bool
  in_turn : Bool
  tts_playing : Bool
  stats : TurnStats
deriving DecidableEq, Repr

def AsrSession.init : AsrSession :=
  ⟨default_audio_config, TurnDetector.State.init, [], none, false, false,
   false, TurnStats.init⟩

/-- Result of one assistant loop iteration. -/
structure AsrStepOut where
  s : AsrSession
  out : List OutMsg
  logs : List String
  cont : Bool
  err : Option String
deriving DecidableEq, Repr

/-- One loop iteration of `handle_ws_assistant`.  The detector is the
default-configured `TurnDetector()`.  On `turn_start`, `tts_playing` is
cleared exactly when it was set (writing `false` is the same either way). -/
def asr_step (env : AsrEnv) (s : AsrSession) (m : InMsg) : AsrStepOut :=
  match m with
  | .text .invalid =>
    ⟨s, [], ["[warn] invalid json text message in assistant mode"], true, none⟩
  | .text .nonObject =>
    ⟨s, [], [], false, some "AttributeError: get on non-object json value"⟩
  | .text (.object t sr bits ch) =>
    if t = some "start" then
      match start_cfg sr bits ch s.cfg with
      | .ok cfg' =>
        ⟨{ s with cfg := cfg', raw_sink := [] }, [], ["[assistant-start]"],
         true, none⟩
      | .error e => ⟨s, [], [], false, some e⟩
    else if t = some "stop" then ⟨s, [], [], false, none⟩
    else ⟨s, [], [], true, none⟩
  | .binary f =>
    let s0 := { s with raw_sink := s.raw_sink ++ f }
    let fd := TurnDetector.feed {} s0.det f
    let ev := fd.2.1
    let rms := fd.2.2.1
    let voiced := fd.2.2.2
    let s1 :=
      if ev = some TurnEvent.turn_start then
        { s0 with det := fd.1, in_turn := true, stats := TurnStats.init,
                  turn_sink := some [], turn_opened := true,
                  tts_playing := false }
      else { s0 with det := fd.1 }
    let out1 : List OutMsg :=
      if ev = some TurnEvent.turn_start ∧ s0.tts_playing then
        [.barge_in "user_speaking"]
      else []
    let s2 :=
      if s1.in_turn then
        { s1 with stats := s1.stats.add rms voiced,
                  turn_sink := s1.turn_sink.map (fun d => d ++ f) }
      else s1
    if ev = some TurnEvent.turn_end ∧ s2.in_turn then
      let s3 := { s2 with in_turn := false, turn_sink := none }
      let r := turn_end_process env s3.turn_opened s3.stats s3.cfg
      match r.2.1 with
      | some e => ⟨s3, out1 ++ r.1, [], false, some e⟩
      | none =>
        ⟨{ s3 with tts_playing := if r.2.2 then true else s3.tts_playing },
         out1 ++ r.1, [], true, none⟩
    else ⟨s2, out1, [], true, none⟩

def asr_run (env : AsrEnv) : AsrSession → List InMsg → AsrSession × List OutMsg
  | s, [] => (s, [])
  | s, m :: ms =>
    let r := asr_step env s m
    if r.cont then
      let rest := asr_run env r.s ms
      (rest.1, r.out ++ rest.2)
    else (r.s, r.out)

/-- C6: the quality gate rejects a turn iff its duration
(`total_frames` × 20 ms) is below 350 ms, or its voiced-frame ratio is below
0.35, or its peak RMS is below 1200; a too-short turn is rejected regardless
of the other statistics; a turn meeting all three thresholds is accepted;
the reason record carries the measured values and exactly the tripped
conditions; and a rejected turn is acknowledged with a single
`asr_skipped` message (never silently dropped, never an abort). -/
theorem quality_gate_spec (stats : TurnStats) (cfg : AudioConfig)
    (env : AsrEnv) (opened : Bool) :
    ((should_drop_turn stats cfg).1 = true ↔
      (stats.total_frames * 20 < 350 ∨ stats.voiced_frac < 35 / 100
        ∨ stats.max_rms < 1200))
    ∧ (stats.total_frames * 20 < 350 → (should_drop_turn stats cfg).1 = true)
    ∧ ((should_drop_turn stats cfg).1 = false ↔
        (350 ≤ stats.total_frames * 20 ∧ 35 / 100 ≤ stats.voiced_frac
          ∧ 1200 ≤ stats.max_rms))
    ∧ (should_drop_turn stats cfg).2.turn_ms = stats.total_frames * 20
    ∧ (should_drop_turn stats cfg).2.voiced_frac = stats.voiced_frac
    ∧ (should_drop_turn stats cfg).2.max_rms = stats.max_rms
    ∧ ((should_drop_turn stats cfg).2.too_short = true
        ↔ stats.total_frames * 20 < 350)
    ∧ ((should_drop_turn stats cfg).2.too_unvoiced = true
        ↔ stats.voiced_frac < 35 / 100)
    ∧ ((should_drop_turn stats cfg).2.too_quiet = true
        ↔ stats.max_rms < 1200)
    ∧ ((should_drop_turn stats cfg).1 = true →
        turn_end_process env opened stats cfg
          = ([.asr_skipped "noise" (should_drop_turn stats cfg).2],
             none, false)) := by
  refine ⟨?_, ?_, ?_, rfl, rfl, rfl, ?_, ?_, ?_, ?_⟩
  · simp [should_drop_turn]
    tauto
  · intro h
    simp [should_drop_turn, h]
  · simp [should_drop_turn, not_lt]
    tauto
  · simp [should_drop_turn]
  · simp [should_drop_turn]
  · simp [should_drop_turn]
  · intro h
    simp [turn_end_process, h]

/-- Witness for C6: a 5-frame (100 ms) turn, loud and fully voiced, is
rejected for being too short and acknowledged with `asr_skipped`. -/
theorem quality_gate_spec_witness :
    (should_drop_turn ⟨5, 5, 3000, 500⟩ default_audio_config).1 = true
    ∧ turn_end_process ⟨false, Except.ok "", "12:00"⟩ true ⟨5, 5, 3000, 500⟩
        default_audio_config
        = ([.asr_skipped "noise"
             (should_drop_turn ⟨5, 5, 3000, 500⟩ default_audio_config).2],
           none, false) := by
  have h := quality_gate_spec ⟨5, 5, 3000, 500⟩ default_audio_config
    ⟨false, Except.ok "", "12:00"⟩ true
  have hd : (should_drop_turn ⟨5, 5, 3000, 500⟩ default_audio_config).1 = true :=
    h.2.1 (by decide)
  exact ⟨hd, h.2.2.2.2.2.2.2.2.2 hd⟩

/-- C7 counterexample: concrete malformed text control messages that are
fatal.  The text `"null"` parses as valid JSON but is not an object, so
`payload.get("type")` raises `AttributeError` in both handlers; and a
`start` object whose `sample_rate` cannot be converted by `int()` raises
there.  In each case the loop stops with an uncaught exception instead of
logging and continuing — so not every malformed text control message is
non-fatal. -/
theorem malformed_text_fatal_counterexample :
    (asr_step ⟨false, Except.ok "", "12:00"⟩ AsrSession.init
        (.text .nonObject)).cont = false
    ∧ (asr_step ⟨false, Except.ok "", "12:00"⟩ AsrSession.init
        (.text .nonObject)).err
        = some "AttributeError: get on non-object json value"
    ∧ (record_step RecordSession.init (.text .nonObject)).2.1 = false
    ∧ (record_step RecordSession.init (.text .nonObject)).2.2.2
        = some "AttributeError: get on non-object json value"
    ∧ (record_step RecordSession.init
        (.text (.object (some "start") .bad .absent .absent))).2.1 = false
    ∧ (record_step RecordSession.init
        (.text (.object (some "start") .bad .absent .absent))).2.2.2
        = some "ValueError: int() conversion failed" :=
  ⟨rfl, rfl, rfl, rfl, rfl, rfl⟩

/-- C7 amended: a text frame whose content fails JSON parsing
(`json.JSONDecodeError`) is logged and ignored by both handlers — the
session state is unchanged, nothing is sent, no exception is raised, the
loop continues, and the rest of the message stream is processed exactly as
if the frame had not been received.  Malformed control messages that *pass*
JSON parsing are fatal instead: a payload that is not a JSON object makes
`payload.get` raise `AttributeError`, and a `start` payload with a field
`int()` cannot convert raises there; both abort the connection. -/
theorem malformed_text_ignored (env : AsrEnv) (s : AsrSession)
    (rest : List InMsg) (sr : RecordSession) (restr : List InMsg)
    (srf bitsf chf : JsonField) :
    asr_step env s (.text .invalid)
      = ⟨s, [], ["[warn] invalid json text message in assistant mode"],
         true, none⟩
    ∧ asr_run env s (.text .invalid :: rest) = asr_run env s rest
    ∧ record_step sr (.text .invalid)
      = (sr, true, ["[warn] invalid json text message"], none)
    ∧ record_run sr (.text .invalid :: restr) = record_run sr restr
    ∧ (asr_step env s (.text .nonObject)).cont = false
    ∧ (asr_step env s (.text .nonObject)).err
        = some "AttributeError: get on non-object json value"
    ∧ (record_step sr (.text .nonObject)).2.1 = false
    ∧ (record_step sr (.text .nonObject)).2.2.2
        = some "AttributeError: get on non-object json value"
    ∧ (start_cfg srf bitsf chf s.cfg = Except.error
          "ValueError: int() conversion failed" →
        (asr_step env s (.text (.object (some "start") srf bitsf chf))).cont
          = false) := by
  refine ⟨rfl, ?_, rfl, ?_, rfl, rfl, rfl, rfl, ?_⟩
  · simp [asr_run, asr_step]
  · simp [record_run, record_step]
  · intro h
    simp [asr_step, h]

/-- Witness for the amended C7: the malformed-JSON frame is ignored and a
`start` with a non-convertible `sample_rate` stops the assistant loop. -/
theorem malformed_text_ignored_witness :
    asr_step ⟨false, Except.ok "", "12:00"⟩ AsrSession.init (.text .invalid)
      = ⟨AsrSession.init, [],
         ["[warn] invalid json text message in assistant mode"], true, none⟩
    ∧ (asr_step ⟨false, Except.ok "", "12:00"⟩ AsrSession.init
        (.text (.object (some "start") .bad .absent .absent))).cont
        = false := by
  have h := malformed_text_ignored ⟨false, Except.ok "", "12:00"⟩
    AsrSession.init [] RecordSession.init [] .bad .absent .absent
  exact ⟨h.1, h.2.2.2.2.2.2.2.2 rfl⟩

/-- C8 amended: when the speech-to-text backend is unavailable
(`enabled = False`, i.e. Whisper failed to load) the turn-end processing of
an accepted turn substitutes the explicit placeholder, still emits
`asr_status`, `asr_result` and `assistant_reply`, and does not abort.  (A
runtime exception from an *enabled* backend's invocation is not soft: it
propagates and aborts the handler — see the counterexample.) -/
theorem transcription_unavailable_soft (stats : TurnStats) (cfg : AudioConfig)
    (mr : ModelResult) (now : String) (opened : Bool)
    (hacc : (should_drop_turn stats cfg).1 = false) :
    turn_end_process ⟨false, mr, now⟩ opened stats cfg
      = ([.asr_status "processing",
          .asr_result "（识别失败或未安装 whisper）",
          .assistant_reply (local_llm_reply "（识别失败或未安装 whisper）" now)],
         none, true) := by
  simp [turn_end_process, hacc]

/-- Witness for the amended C8: an accepted 400 ms fully-voiced turn with
the backend unavailable. -/
theorem transcription_unavailable_soft_witness :
    turn_end_process ⟨false, Except.ok "", "12:00"⟩ true ⟨20, 20, 2000, 40000⟩
      default_audio_config
      = ([.asr_status "processing",
          .asr_result "（识别失败或未安装 whisper）",
          .assistant_reply
            (local_llm_reply "（识别失败或未安装 whisper）" "12:00")],
         none, true) :=
  transcription_unavailable_soft ⟨20, 20, 2000, 40000⟩ default_audio_config
    (Except.ok "") "12:00" true
    (by simp [should_drop_turn, TurnStats.voiced_frac]; norm_num)

/-- C8 counterexample: for the same accepted turn with the backend enabled,
a model exception aborts the processing right after `asr_status`: no
`asr_result` or `assistant_reply` is emitted and the error propagates
(`err = some`), so a failing invocation is not handled softly. -/
theorem transcription_error_aborts :
    turn_end_process ⟨true, Except.error "whisper crashed", "12:00"⟩ true
      ⟨20, 20, 2000, 40000⟩ default_audio_config
      = ([.asr_status "processing"], some "whisper crashed", false) := by
  have hacc : (should_drop_turn ⟨20, 20, 2000, 40000⟩ default_audio_config).1
      = false := by
    simp [should_drop_turn, TurnStats.voiced_frac]
    norm_num
  simp [turn_end_process, hacc, WhisperASR.transcribe]

/-- Binary frames fed to an open record sink append to it in order. -/
theorem record_run_binary_from_sink (c : AudioConfig) :
    ∀ (fs : List (List Nat)) (cfg : AudioConfig) (data : List Nat) (tb : Nat),
      (record_run ⟨cfg, some (c, data), tb⟩ (fs.map InMsg.binary)).cfg = cfg
      ∧ (record_run ⟨cfg, some (c, data), tb⟩ (fs.map InMsg.binary)).sink
          = some (c, data ++ fs.flatten)
      ∧ (record_run ⟨cfg, some (c, data), tb⟩ (fs.map InMsg.binary)).total_bytes
          = tb + (fs.map List.length).sum := by
  intro fs
  induction fs with
  | nil =>
    intro cfg data tb
    simp [record_run]
  | cons f fs ih =>
    intro cfg data tb
    have hrun : record_run ⟨cfg, some (c, data), tb⟩
          ((f :: fs).map InMsg.binary)
        = record_run ⟨cfg, some (c, data ++ f), tb + f.length⟩
            (fs.map InMsg.binary) := by
      simp [List.map_cons, record_run, record_step]
    rw [hrun]
    obtain ⟨h1, h2, h3⟩ := ih cfg (data ++ f) (tb + f.length)
    refine ⟨h1, ?_, ?_⟩
    · rw [h2]
      simp
    · rw [h3]
      simp
      omega

/-- C9: in record mode, a binary frame arriving before any `start` control
message is not dropped and does not fail: the handler implicitly opens the
WAV sink under the default configuration (16000 Hz, 16 bits, 1 channel) and
writes that frame and every subsequent binary frame to it, counting the
bytes. -/
theorem record_implicit_start (f : List Nat) (fs : List (List Nat)) :
    (record_run RecordSession.init ((f :: fs).map InMsg.binary)).cfg
        = default_audio_config
    ∧ (record_run RecordSession.init ((f :: fs).map InMsg.binary)).sink
        = some (default_audio_config, (f :: fs).flatten)
    ∧ (record_run RecordSession.init ((f :: fs).map InMsg.binary)).total_bytes
        = ((f :: fs).map List.length).sum := by
  have hrun : record_run RecordSession.init ((f :: fs).map InMsg.binary)
      = record_run ⟨default_audio_config, some (default_audio_config, f),
          f.length⟩ (fs.map InMsg.binary) := by
    simp [List.map_cons, record_run, record_step, RecordSession.init]
  obtain ⟨h1, h2, h3⟩ := record_run_binary_from_sink default_audio_config fs
    default_audio_config f f.length
  rw [hrun]
  refine ⟨h1, ?_, ?_⟩
  · rw [h2]
    simp
  · rw [h3]
    simp

end Chatbot
